import Mathlib

/-!
Verification development for the IRIS SJI level-2 ingestion module
(new_sji.py).  The data model and all operations are shallowly embedded:
numpy float arrays become rank-indexed nested lists of an extended rational
type with an explicit NaN element, stateful in-place sentinel replacement is
translated by sequencing the replaced array, Python exceptions become
Except results, and the per-file FITS handle discipline is tracked by an
explicit open-handle counter threaded through the ingestion loop.

Collaborator code that is not part of the repository source under scrutiny
(the astropy unit system, numpy sqrt, the ndcube extra-coords round-trip,
and the iris_tools calibration helpers) is modelled from the spec, as
marked in the individual doc comments.
-/

namespace IrisSJI

/-- FVal models one numpy float64 cell: either NaN or a finite value
(modelled as a rational; infinities never arise in the claims under
study, and division by zero is mapped to NaN). -/
inductive FVal where
  | nan : FVal
  | val : ℚ → FVal
deriving DecidableEq

/-- Elementwise addition with numpy NaN propagation. -/
def fvalAdd : FVal → FVal → FVal
  | FVal.val a, FVal.val b => FVal.val (a + b)
  | _, _ => FVal.nan

/-- Elementwise multiplication with numpy NaN propagation. -/
def fvalMul : FVal → FVal → FVal
  | FVal.val a, FVal.val b => FVal.val (a * b)
  | _, _ => FVal.nan

/-- Elementwise division with numpy NaN propagation.  The model has no
infinities, so a zero divisor also yields NaN; every theorem below keeps
zero divisors out of scope by hypothesis. -/
def fvalDiv : FVal → FVal → FVal
  | FVal.val a, FVal.val b => if b = 0 then FVal.nan else FVal.val (a / b)
  | _, _ => FVal.nan

/-- Modelled from the spec: numpy elementwise square root, an external
math collaborator.  NaN propagates and a negative argument yields NaN
(numpy emits a warning, never raises).  The nonnegative branch is
parameterized by the square-root implementation sq, over which every
theorem is universally quantified. -/
def fsqrt (sq : ℚ → ℚ) : FVal → FVal
  | FVal.nan => FVal.nan
  | FVal.val q => if q < 0 then FVal.nan else FVal.val (sq q)

/-- Arr models a numpy array of rank 1 to 4 (rank 4 exists in the model
only so that the unsupported-rank error path of the exposure correction is
representable). -/
inductive Arr (α : Type) where
  | d1 : List α → Arr α
  | d2 : List (List α) → Arr α
  | d3 : List (List (List α)) → Arr α
  | d4 : List (List (List (List α))) → Arr α
deriving DecidableEq

/-- ndim of the array, as numpy reports it. -/
def Arr.ndim {α : Type} : Arr α → Nat
  | Arr.d1 _ => 1
  | Arr.d2 _ => 2
  | Arr.d3 _ => 3
  | Arr.d4 _ => 4

/-- Length of the array along axis 0 (shape[0]). -/
def Arr.frames {α : Type} : Arr α → Nat
  | Arr.d1 xs => xs.length
  | Arr.d2 xs => xs.length
  | Arr.d3 xs => xs.length
  | Arr.d4 xs => xs.length

/-- Elementwise map, the shallow counterpart of a numpy elementwise
expression. -/
def Arr.map {α β : Type} (f : α → β) : Arr α → Arr β
  | Arr.d1 xs => Arr.d1 (xs.map f)
  | Arr.d2 xs => Arr.d2 (xs.map (fun r => r.map f))
  | Arr.d3 xs => Arr.d3 (xs.map (fun p => p.map (fun r => r.map f)))
  | Arr.d4 xs => Arr.d4 (xs.map (fun c => c.map (fun p => p.map (fun r => r.map f))))

/-- Flattening of the array cells in row-major order. -/
def Arr.flat {α : Type} : Arr α → List α
  | Arr.d1 xs => xs
  | Arr.d2 xs => xs.flatten
  | Arr.d3 xs => (xs.map List.flatten).flatten
  | Arr.d4 xs => (xs.map (fun p => (p.map List.flatten).flatten)).flatten

/-- Per-frame scalar combination: frame i of the array is combined with
element i of the per-frame vector.  For ranks 2 and 3 this is exactly the
semantics of broadcasting the vector reshaped with one resp. two trailing
singleton axes against the array, which is what the source does with
exposure_time_s.  The model requires the vector length to equal the frame
count (the ingestion invariant); the rank-4 arm is never reached because
the unsupported-rank error fires first. -/
def Arr.scaleFrames (op : FVal → ℚ → FVal) : Arr FVal → List ℚ → Arr FVal
  | Arr.d1 xs, e => Arr.d1 (List.zipWith op xs e)
  | Arr.d2 xs, e => Arr.d2 (List.zipWith (fun row t => row.map (fun v => op v t)) xs e)
  | Arr.d3 xs, e =>
      Arr.d3 (List.zipWith (fun pl t => pl.map (fun row => row.map (fun v => op v t))) xs e)
  | Arr.d4 xs, _ => Arr.d4 xs

/-- Modelled from the spec: a physical unit of the astropy collaborator,
reduced to what the module observes: a base tag, the factor converting one
base unit to photons, and the power of seconds carried by the unit (the
inverse-time factor used by the idempotence guard). -/
structure IrisUnit where
  tag : String
  photonFactor : ℚ
  secPow : Int
deriving DecidableEq

/-- Modelled from the spec: conversion of a cell value from the unit to
the photon-count basis (multiplication by the fixed factor). -/
def IrisUnit.toPhotonVal (uu : IrisUnit) (v : FVal) : FVal :=
  fvalMul v (FVal.val uu.photonFactor)

/-- Modelled from the spec: conversion of a photon-basis cell value back
to the unit (division by the fixed factor). -/
def IrisUnit.fromPhotonVal (uu : IrisUnit) (v : FVal) : FVal :=
  fvalDiv v (FVal.val uu.photonFactor)

/-- Modelled from the spec: the Unit/Calibration Table of iris_tools is
not under src/.  The spec fixes its shape (a per-detector unit and a
readout-noise constant in photon-equivalent units) but not the numeric
constants, so the table is parameterized: photonFactor is the photon
content of one scaled SJI data number, readoutPhoton the readout-noise
constant expressed in photons, and sqrtF the square-root implementation of
the math collaborator. -/
structure Calibration where
  photonFactor : ℚ
  readoutPhoton : ℚ
  sqrtF : ℚ → ℚ

/-- Modelled from the spec: DN_UNIT for the scaled SJI detector type. -/
def DN_UNIT_SJI (cal : Calibration) : IrisUnit :=
  { tag := "DN_IRIS_SJI", photonFactor := cal.photonFactor, secPow := 0 }

/-- Modelled from the spec: DN_UNIT for the unscaled (memory-mapped)
SJI variant; no conversion or noise constant is ever used with it. -/
def DN_UNIT_SJI_UNSCALED : IrisUnit :=
  { tag := "DN_IRIS_SJI_UNSCALED", photonFactor := 1, secPow := 0 }

/-- Modelled from the spec: READOUT_NOISE for the SJI detector, already
expressed in the photon-count basis. -/
def READOUT_NOISE_SJI (cal : Calibration) : ℚ :=
  cal.readoutPhoton

/-- Modelled from the spec: the time-parsing collaborator maps an
instrument timestamp string to an opaque absolute time. -/
structure IrisTime where
  base : String
  offset : ℚ
deriving DecidableEq

/-- Modelled from the spec: parse_time of the time collaborator. -/
def parse_time (s : String) : IrisTime :=
  { base := s, offset := 0 }

/-- Modelled from the spec: adding a timedelta of a given number of
seconds to an absolute time. -/
def addSeconds (t : IrisTime) (s : ℚ) : IrisTime :=
  { base := t.base, offset := t.offset + s }

/-- Scalar metadata extracted from the primary header (source lines
354-365); absent header fields degrade to none. -/
structure Meta where
  TELESCOP : Option String
  INSTRUME : Option String
  TWAVE1 : Option ℚ
  STARTOBS : Option IrisTime
  ENDOBS : Option IrisTime
  NBFRAMES : Nat
  OBSID : Option Int
  OBS_DESC : Option String
deriving DecidableEq

/-- Per-frame auxiliary coordinates of one cube (source lines 349-352);
the angular and velocity columns are stored as magnitudes of quantities
with fixed units. -/
structure ExtraCoords where
  times : List IrisTime
  pztx : List ℚ
  pzty : List ℚ
  xcenix : List ℚ
  ycenix : List ℚ
  obs_vrix : List ℚ
  ophaseix : List ℚ
  exposure_times : List ℚ
deriving DecidableEq

/-- IRISMapCube, the observation cube.  The wcs field is the opaque token
of the WCS collaborator; scaled is an Option Bool because the Python
attribute defaults to None when the constructor is called without it. -/
structure IRISMapCube where
  data : Arr FVal
  wcs : Nat
  uncertainty : Option (Arr FVal)
  unit : IrisUnit
  meta : Meta
  mask : Option (Arr Bool)
  extra_coords : ExtraCoords
  missing_axis : Option (List Bool)
  scaled : Option Bool
deriving DecidableEq

/-- IRISMapCubeSequence after a successful construction. -/
structure IRISMapCubeSequence where
  data_list : List IRISMapCube
  meta : Option Meta
  common_axis : Nat
deriving DecidableEq

/-- Primary-header fields the module reads. -/
structure PrimaryHeader where
  STARTOBS : Option String
  ENDOBS : Option String
  TELESCOP : Option String
  INSTRUME : Option String
  TWAVE1 : Option ℚ
  OBSID : Option Int
  OBS_DESC : Option String
deriving DecidableEq

/-- Secondary (auxiliary-table) HDU: header keys declaring column
indices, and the table rows.  A key that is absent models a header
without that card, on which Python raises KeyError. -/
structure AuxHDU where
  exptimesCol : Option Nat
  timeCol : Option Nat
  pztxCol : Option Nat
  pztyCol : Option Nat
  xcenixCol : Option Nat
  ycenixCol : Option Nat
  obsVrixCol : Option Nat
  ophaseixCol : Option Nat
  rows : List (List ℚ)
deriving DecidableEq

/-- One FITS file as the fits collaborator presents it for the chosen
open mode: primary header, primary data array, the opaque WCS token
derived from the primary header, and the auxiliary table HDU. -/
structure FitsFile where
  header : PrimaryHeader
  data : Arr FVal
  wcsId : Nat
  aux : AuxHDU
deriving DecidableEq

/-- Direct dictionary-style header access: raises KeyError when the card
is absent. -/
def keyLookup {α : Type} (v : Option α) (key : String) : Except String α :=
  match v with
  | some a => Except.ok a
  | none => Except.error ("KeyError: " ++ key)

/-- Column extraction hdulist[1].data[:, j].  The header-declared index is
assumed in range, per the FITS contract of the spec. -/
def column (rows : List (List ℚ)) (j : Nat) : List ℚ :=
  rows.map (fun r => r.getD j 0)

/-- In-place sentinel replacement data_nan_masked[data == s] = r.  The
boolean index is evaluated from the array as it stands before the write,
so exactly the cells equal to the sentinel are overwritten. -/
def replaceSentinel (s : ℚ) (r : FVal) (a : Arr FVal) : Arr FVal :=
  a.map (fun v => if v = FVal.val s then r else v)

/-- The per-cell uncertainty expression of source lines 334-336:
sqrt((data_nan_masked*unit).to(photon).value + readout_noise.to(photon).value**2)
put back into the declared unit. -/
def codeUncertainty (cal : Calibration) (v : FVal) : FVal :=
  (DN_UNIT_SJI cal).fromPhotonVal
    (fsqrt cal.sqrtF
      (fvalAdd ((DN_UNIT_SJI cal).toPhotonVal v)
        (FVal.val (READOUT_NOISE_SJI cal ^ 2))))

/-- Scalar metadata extraction of source lines 354-365: STARTOBS and
ENDOBS are parsed only when present and non-empty (Python truthiness),
NBFRAMES is the primary array frame count, everything else is a plain
optional header read. -/
def metaOfFile (f : FitsFile) : Meta :=
  { TELESCOP := f.header.TELESCOP
    INSTRUME := f.header.INSTRUME
    TWAVE1 := f.header.TWAVE1
    STARTOBS :=
      match f.header.STARTOBS with
      | some s => if s = "" then none else some (parse_time s)
      | none => none
    ENDOBS :=
      match f.header.ENDOBS with
      | some s => if s = "" then none else some (parse_time s)
      | none => none
    NBFRAMES := f.data.frames
    OBSID := f.header.OBSID
    OBS_DESC := f.header.OBS_DESC }

/-- Extraction of the per-frame auxiliary coordinates (source lines
337-352), with the header lookups performed in source order: EXPTIMES,
then TIME with the per-element STARTOBS access inside the comprehension,
then PZTX, PZTY, XCENIX, YCENIX, OBS_VRIX, OPHASEIX. -/
def extractExtraCoords (f : FitsFile) : Except String ExtraCoords := do
  let jE ← keyLookup f.aux.exptimesCol "EXPTIMES"
  let exposure_times := column f.aux.rows jE
  let jT ← keyLookup f.aux.timeCol "TIME"
  let times ← (column f.aux.rows jT).mapM (fun s => do
    let sObs ← keyLookup f.header.STARTOBS "STARTOBS"
    pure (addSeconds (parse_time sObs) s))
  let jPx ← keyLookup f.aux.pztxCol "PZTX"
  let jPy ← keyLookup f.aux.pztyCol "PZTY"
  let jXc ← keyLookup f.aux.xcenixCol "XCENIX"
  let jYc ← keyLookup f.aux.ycenixCol "YCENIX"
  let jVr ← keyLookup f.aux.obsVrixCol "OBS_VRIX"
  let jOp ← keyLookup f.aux.ophaseixCol "OPHASEIX"
  pure
    { times := times
      pztx := column f.aux.rows jPx
      pzty := column f.aux.rows jPy
      xcenix := column f.aux.rows jXc
      ycenix := column f.aux.rows jYc
      obs_vrix := column f.aux.rows jVr
      ophaseix := column f.aux.rows jOp
      exposure_times := exposure_times }

/-- Per-file cube construction, the loop body of source lines 313-368.
data_nan_masked aliases data, so after the in-place write both names
denote the replaced array; in particular the scaled-mode mask comparison
of line 328 reads the already replaced array. -/
def buildCube (cal : Calibration) (f : FitsFile) (memmap : Bool) :
    Except String IRISMapCube :=
  let data := f.data
  let data_nan_masked :=
    if memmap then replaceSentinel (-32768) (FVal.val 0) data
    else replaceSentinel (-200) FVal.nan data
  let mask : Option (Arr Bool) :=
    if memmap then none
    else some (data_nan_masked.map (fun v => decide (v = FVal.val (-200))))
  let scaled := if memmap then false else true
  let unit := if memmap then DN_UNIT_SJI_UNSCALED else DN_UNIT_SJI cal
  let uncertainty : Option (Arr FVal) :=
    if memmap then none
    else some (data_nan_masked.map (codeUncertainty cal))
  match extractExtraCoords f with
  | Except.error e => Except.error e
  | Except.ok ec =>
      Except.ok
        { data := data_nan_masked
          wcs := f.wcsId
          uncertainty := uncertainty
          unit := unit
          meta := metaOfFile f
          mask := mask
          extra_coords := ec
          missing_axis := none
          scaled := some scaled }

/-- Result of the reader: one cube for one path, a sequence otherwise. -/
inductive ReadResult where
  | cube : IRISMapCube → ReadResult
  | seq : IRISMapCubeSequence → ReadResult
deriving DecidableEq

/-- Argument of the reader: a bare path or a list of paths, with the
path already resolved to the file content it denotes. -/
inductive FileArg where
  | str : FitsFile → FileArg
  | list : List FitsFile → FileArg
deriving DecidableEq

/-- The error message of the sequence OBSID invariant check (source
lines 234-235). -/
def obsidErrorMsg : String :=
  "Constituent IRISMapCube objects must have same value of OBSID in its meta."

/-- Construction of IRISMapCubeSequence (source lines 231-237): the
comprehension compares every member OBSID against the first member, and
np.any of the resulting booleans triggers the data-inconsistency error.
An empty list yields an empty comprehension and therefore succeeds. -/
def sequenceInit (data_list : List IRISMapCube) (meta : Option Meta)
    (common_axis : Nat) : Except String IRISMapCubeSequence :=
  match data_list with
  | [] => Except.ok { data_list := [], meta := meta, common_axis := common_axis }
  | c0 :: _ =>
      if data_list.any (fun c => decide (c.meta.OBSID ≠ c0.meta.OBSID)) then
        Except.error obsidErrorMsg
      else
        Except.ok { data_list := data_list, meta := meta, common_axis := common_axis }

/-- The ingestion loop of source lines 312-369 with the open FITS
handle count threaded explicitly: fits.open raises the count by one,
hdulist.close lowers it again, and close is only reached on the success
path of the loop body, so a failing file leaves its handle open. -/
def readLoop (cal : Calibration) (memmap : Bool) :
    List FitsFile → Nat → Except String (List IRISMapCube) × Nat
  | [], n => (Except.ok [], n)
  | f :: rest, n =>
      match buildCube cal f memmap with
      | Except.error e => (Except.error e, n + 1)
      | Except.ok c =>
          match readLoop cal memmap rest n with
          | (Except.ok cs, m) => (Except.ok (c :: cs), m)
          | (Except.error e, m) => (Except.error e, m)

/-- Normalization of the filenames argument (source lines 310-311): a
bare string becomes a singleton list. -/
def normalizeFilenames : FileArg → List FitsFile
  | FileArg.str f => [f]
  | FileArg.list fs => fs

/-- Body of read_iris_sji_level2_fits after argument normalization
(source lines 312-373): the loop builds one cube per file; a single path
returns its cube, more paths build a sequence whose meta is the loop
variable left over from the last file, i.e. the last cube's own meta;
an empty path list reaches the sequence branch with the meta variable
unbound, a NameError.  The second component is the number of FITS
handles still open when the call returns or raises. -/
def readCore (cal : Calibration) (memmap : Bool) (fns : List FitsFile) :
    Except String ReadResult × Nat :=
  match readLoop cal memmap fns 0 with
  | (Except.error e, n) => (Except.error e, n)
  | (Except.ok cubes, n) =>
      if fns.length = 1 then
        match cubes with
        | c :: _ => (Except.ok (ReadResult.cube c), n)
        | [] => (Except.error "IndexError: list index out of range", n)
      else
        match cubes.getLast? with
        | none => (Except.error "NameError: name meta is not defined", n)
        | some clast =>
            match sequenceInit cubes (some clast.meta) 0 with
            | Except.error e => (Except.error e, n)
            | Except.ok s => (Except.ok (ReadResult.seq s), n)

/-- read_iris_sji_level2_fits (source lines 290-373). -/
def read_iris_sji_level2_fits (cal : Calibration) (filenames : FileArg)
    (memmap : Bool) : Except String ReadResult × Nat :=
  readCore cal memmap (normalizeFilenames filenames)

/-- The usage-error message raised when exposure correction is invoked on
a cube whose scaled flag is not truthy (source line 182). -/
def memmapErrorMsg : String :=
  "This method is not available as you are using memmap"

/-- Division of one cell by the exposure time of its frame. -/
def divByExp (v : FVal) (t : ℚ) : FVal :=
  fvalDiv v (FVal.val t)

/-- Multiplication of one cell by the exposure time of its frame. -/
def mulByExp (v : FVal) (t : ℚ) : FVal :=
  fvalMul v (FVal.val t)

/-- Modelled from the spec: iris_tools.calculate_exposure_time_correction
is not under src/.  Per the spec, apply is a no-op unless forced when the
unit already carries an inverse-time factor; otherwise data and
uncertainty are divided framewise by the exposure-time vector and the
unit is multiplied by inverse time.  A frame-count mismatch is the
broadcast error of the array collaborator. -/
def calculate_exposure_time_correction (dataArr uncArr : Arr FVal)
    (uu : IrisUnit) (e : List ℚ) (force : Bool) :
    Except String ((Arr FVal × Arr FVal) × IrisUnit) :=
  if force = false ∧ uu.secPow < 0 then
    Except.ok ((dataArr, uncArr), uu)
  else if dataArr.frames ≠ e.length ∨ uncArr.frames ≠ e.length then
    Except.error "operands could not be broadcast together"
  else
    Except.ok
      ((dataArr.scaleFrames divByExp e, uncArr.scaleFrames divByExp e),
       { tag := uu.tag, photonFactor := uu.photonFactor, secPow := uu.secPow - 1 })

/-- Modelled from the spec: iris_tools.uncalculate_exposure_time_correction
is not under src/.  Per the spec, undo is a no-op unless forced when the
unit carries no inverse-time factor; otherwise data and uncertainty are
multiplied framewise by the exposure-time vector and the unit is divided
by inverse time. -/
def uncalculate_exposure_time_correction (dataArr uncArr : Arr FVal)
    (uu : IrisUnit) (e : List ℚ) (force : Bool) :
    Except String ((Arr FVal × Arr FVal) × IrisUnit) :=
  if force = false ∧ ¬ uu.secPow < 0 then
    Except.ok ((dataArr, uncArr), uu)
  else if dataArr.frames ≠ e.length ∨ uncArr.frames ≠ e.length then
    Except.error "operands could not be broadcast together"
  else
    Except.ok
      ((dataArr.scaleFrames mulByExp e, uncArr.scaleFrames mulByExp e),
       { tag := uu.tag, photonFactor := uu.photonFactor, secPow := uu.secPow + 1 })

/-- Modelled from the spec: the ndcube collaborator round-trips the
extra-coords dictionary through its constructor input format; on the
record of per-frame coordinates this is the identity. -/
def convert_extra_coords_dict_to_input_format (ec : ExtraCoords) : ExtraCoords :=
  ec

/-- The cube built by the constructor call of source lines 205-209: new
data, uncertainty and unit, the original wcs, meta, mask, missing_axis
and round-tripped extra coords.  The call passes no scaled argument, so
the new instance keeps the constructor default None. -/
def correctedCube (c : IRISMapCube) (d u : Arr FVal) (uu : IrisUnit) :
    IRISMapCube :=
  { data := d
    wcs := c.wcs
    uncertainty := some u
    unit := uu
    meta := c.meta
    mask := c.mask
    extra_coords := convert_extra_coords_dict_to_input_format c.extra_coords
    missing_axis := c.missing_axis
    scaled := none }

/-- Value returned or exception raised by
apply_exposure_time_correction (source lines 145-209).  The truthiness
test of line 181 rejects both scaled=False and the constructor default
None; the exposure vector stored by ingestion is never a scalar, so the
reshape of lines 186-196 always runs and rejects any rank outside 1-3;
the uncertainty access of lines 200 and 203 fails on a cube without an
uncertainty, as attribute access on None does. -/
def applyExposureRes (c : IRISMapCube) (undo : Bool) (force : Bool) :
    Except String IRISMapCube :=
  if c.scaled ≠ some true then Except.error memmapErrorMsg
  else
    let e := c.extra_coords.exposure_times
    if c.data.ndim = 1 ∨ c.data.ndim = 2 ∨ c.data.ndim = 3 then
      match c.uncertainty with
      | none => Except.error "AttributeError: NoneType object has no attribute array"
      | some unc =>
          match
            (if undo then uncalculate_exposure_time_correction c.data unc c.unit e force
             else calculate_exposure_time_correction c.data unc c.unit e force) with
          | Except.error m => Except.error m
          | Except.ok ((d2, u2), newUnit) => Except.ok (correctedCube c d2 u2 newUnit)
    else
      Except.error
        ("IRISMapCube dimensions must be 2 or 3. Dimensions=" ++ toString c.data.ndim)

/-- apply_exposure_time_correction in state-passing form: the first
component is the returned value or the raised exception, the second the
receiver after the call.  The method body assigns nothing to self and
every array operation in it allocates a fresh array, so the post-state
equals the pre-state. -/
def applyExposureTimeCorrection (c : IRISMapCube) (undo : Bool)
    (force : Bool) : Except String IRISMapCube × IRISMapCube :=
  (applyExposureRes c undo force, c)

/-!
Concrete fixtures used by the closed evaluation theorems and witnesses.
-/

/-- A concrete calibration instance: two photons per data number, a
readout noise of three photons, and the identity as the square-root
stand-in (the theorems hold for every square-root implementation). -/
def testCal : Calibration :=
  { photonFactor := 2, readoutPhoton := 3, sqrtF := fun q => q }

/-- An auxiliary HDU with all eight column keys declared and one frame
row. -/
def auxStd : AuxHDU :=
  { exptimesCol := some 0, timeCol := some 1, pztxCol := some 2,
    pztyCol := some 3, xcenixCol := some 4, ycenixCol := some 5,
    obsVrixCol := some 6, ophaseixCol := some 7,
    rows := [[2, 0, 1, 1, 1, 1, 1, 1]] }

/-- A complete primary header. -/
def hdrStd : PrimaryHeader :=
  { STARTOBS := some "2017-05-02T05:25:51", ENDOBS := some "2017-05-02T06:25:51",
    TELESCOP := some "IRIS", INSTRUME := some "SJI", TWAVE1 := some 1400,
    OBSID := some 366, OBS_DESC := some "large coarse" }

/-- A one-frame file whose data contains the scaled bad-pixel sentinel
in its first cell. -/
def file1 : FitsFile :=
  { header := hdrStd, data := Arr.d2 [[FVal.val (-200), FVal.val 100]],
    wcsId := 7, aux := auxStd }

/-- A file whose auxiliary header lacks the EXPTIMES card, so its
extraction raises after the FITS handle has been opened. -/
def file2bad : FitsFile :=
  { header := hdrStd, data := Arr.d2 [[FVal.val 5]], wcsId := 3,
    aux := { auxStd with exptimesCol := none } }

/-- A second well-formed file with the same OBSID as file1. -/
def file8b : FitsFile :=
  { header := hdrStd, data := Arr.d2 [[FVal.val 8, FVal.val 12]],
    wcsId := 9, aux := auxStd }

/-- Empty per-frame coordinates. -/
def emptyEC : ExtraCoords :=
  { times := [], pztx := [], pzty := [], xcenix := [], ycenix := [],
    obs_vrix := [], ophaseix := [], exposure_times := [] }

/-- Metadata with every optional field absent. -/
def emptyMeta : Meta :=
  { TELESCOP := none, INSTRUME := none, TWAVE1 := none, STARTOBS := none,
    ENDOBS := none, NBFRAMES := 0, OBSID := none, OBS_DESC := none }

/-- A default cube used only as fallback of partial extractions in the
fixtures. -/
def emptyCube : IRISMapCube :=
  { data := Arr.d1 [], wcs := 0, uncertainty := none,
    unit := DN_UNIT_SJI_UNSCALED, meta := emptyMeta, mask := none,
    extra_coords := emptyEC, missing_axis := none, scaled := none }

/-- A concrete scaled cube: one frame of one pixel with value 6,
uncertainty 2, exposure time 2 seconds, unit without inverse time. -/
def c5cube : IRISMapCube :=
  { data := Arr.d2 [[FVal.val 6]], wcs := 1,
    uncertainty := some (Arr.d2 [[FVal.val 2]]),
    unit := { tag := "DN_IRIS_SJI", photonFactor := 2, secPow := 0 },
    meta := emptyMeta, mask := some (Arr.d2 [[false]]),
    extra_coords := { emptyEC with exposure_times := [2] },
    missing_axis := none, scaled := some true }

/-- The cube returned by the first exposure-time correction of
c5cube. -/
def c5once : IRISMapCube :=
  ((applyExposureTimeCorrection c5cube false false).1).toOption.getD emptyCube

/-- The cube produced by scaled-mode ingestion of file1. -/
def c1cube : IRISMapCube :=
  match (read_iris_sji_level2_fits testCal (FileArg.str file1) false).1 with
  | Except.ok (ReadResult.cube c) => c
  | _ => emptyCube

/-- The cube produced by memory-mapped ingestion of file1. -/
def c3cube : IRISMapCube :=
  match (read_iris_sji_level2_fits testCal (FileArg.str file1) true).1 with
  | Except.ok (ReadResult.cube c) => c
  | _ => emptyCube

/-- A scaled cube with a rank-4 data array. -/
def c4big : IRISMapCube :=
  { c5cube with data := Arr.d4 [[[[FVal.val 1]]]] }

/-- A cube like c5cube but carrying a different OBSID. -/
def cObs1 : IRISMapCube :=
  { c5cube with meta := { emptyMeta with OBSID := some 1 } }

/-- A sentinel-free rank-1 file used by the uncertainty witness. -/
def wfile9 : FitsFile :=
  { header := hdrStd, data := Arr.d1 [FVal.val 4], wcsId := 2, aux := auxStd }

/-- The cube produced by scaled-mode ingestion of wfile9. -/
def wcube9 : IRISMapCube :=
  match (read_iris_sji_level2_fits testCal (FileArg.str wfile9) false).1 with
  | Except.ok (ReadResult.cube c) => c
  | _ => emptyCube

/-- The sequence produced by ingesting file1 and file8b together. -/
def c8seq : IRISMapCubeSequence :=
  match (read_iris_sji_level2_fits testCal (FileArg.list [file1, file8b]) false).1 with
  | Except.ok (ReadResult.seq s) => s
  | _ => { data_list := [], meta := none, common_axis := 0 }

/-- The uncertainty formula written from the spec text: convert the
cleaned sample to the photon-count basis, add the square of the
readout-noise constant expressed in the photon-count basis, take the
square root, and convert back to the declared unit. -/
def uncertaintySpec (cal : Calibration) (v : FVal) : FVal :=
  (DN_UNIT_SJI cal).fromPhotonVal
    (fsqrt cal.sqrtF
      (fvalAdd ((DN_UNIT_SJI cal).toPhotonVal v)
        (FVal.val (READOUT_NOISE_SJI cal ^ 2))))

/-!
Helper lemmas shared by the claim theorems.
-/

/-- A successful ingestion loop releases every handle it opened. -/
theorem readLoop_ok_count (cal : Calibration) (memmap : Bool) :
    ∀ (fs : List FitsFile) (n : Nat) (cs : List IRISMapCube),
      (readLoop cal memmap fs n).1 = Except.ok cs →
      (readLoop cal memmap fs n).2 = n := by
  intro fs
  induction fs with
  | nil => intro n cs _; rfl
  | cons f rest ih =>
      intro n cs h
      cases hb : buildCube cal f memmap with
      | error e => simp [readLoop, hb] at h
      | ok c =>
          cases hr : readLoop cal memmap rest n with
          | mk r m =>
              cases r with
              | error e => simp [readLoop, hb, hr] at h
              | ok cs2 =>
                  have h2 : (readLoop cal memmap rest n).1 = Except.ok cs2 := by
                    rw [hr]
                  have h3 := ih n cs2 h2
                  rw [hr] at h3
                  simp [readLoop, hb, hr]
                  exact h3

/-- A failing ingestion loop stops with exactly the failing handle
still open. -/
theorem readLoop_error_count (cal : Calibration) (memmap : Bool) :
    ∀ (fs : List FitsFile) (n : Nat) (e : String),
      (readLoop cal memmap fs n).1 = Except.error e →
      (readLoop cal memmap fs n).2 = n + 1 := by
  intro fs
  induction fs with
  | nil => intro n e h; simp [readLoop] at h
  | cons f rest ih =>
      intro n e h
      cases hb : buildCube cal f memmap with
      | error e2 => simp [readLoop, hb]
      | ok c =>
          cases hr : readLoop cal memmap rest n with
          | mk r m =>
              cases r with
              | ok cs2 => simp [readLoop, hb, hr] at h
              | error e2 =>
                  have h2 : (readLoop cal memmap rest n).1 = Except.error e2 := by
                    rw [hr]
                  have h3 := ih n e2 h2
                  rw [hr] at h3
                  simp [readLoop, hb, hr]
                  exact h3

/-- The metadata of a successfully built cube is the file extraction. -/
theorem buildCube_meta (cal : Calibration) (f : FitsFile) (memmap : Bool)
    (c : IRISMapCube) (h : buildCube cal f memmap = Except.ok c) :
    c.meta = metaOfFile f := by
  cases hx : extractExtraCoords f with
  | error e => simp [buildCube, hx] at h
  | ok ec =>
      simp [buildCube, hx] at h
      subst h
      rfl

/-- Field contents of a cube built by the scaled (memmap=false) path. -/
theorem buildCube_scaled_fields (cal : Calibration) (f : FitsFile)
    (c : IRISMapCube) (h : buildCube cal f false = Except.ok c) :
    c.data = replaceSentinel (-200) FVal.nan f.data ∧
    c.uncertainty =
      some ((replaceSentinel (-200) FVal.nan f.data).map (codeUncertainty cal)) ∧
    c.mask =
      some ((replaceSentinel (-200) FVal.nan f.data).map
        (fun v => decide (v = FVal.val (-200)))) ∧
    c.scaled = some true ∧ c.unit = DN_UNIT_SJI cal := by
  cases hx : extractExtraCoords f with
  | error e => simp [buildCube, hx] at h
  | ok ec =>
      simp [buildCube, hx] at h
      subst h
      exact ⟨rfl, rfl, rfl, rfl, rfl⟩

/-- A successful loop yields one cube per file, in order, each carrying
its own file metadata. -/
theorem readLoop_ok_cubes (cal : Calibration) (memmap : Bool) :
    ∀ (fs : List FitsFile) (n : Nat) (cs : List IRISMapCube),
      (readLoop cal memmap fs n).1 = Except.ok cs →
      cs.length = fs.length ∧
      cs.map (fun c => c.meta) = fs.map metaOfFile := by
  intro fs
  induction fs with
  | nil =>
      intro n cs h
      simp [readLoop] at h
      subst h
      exact ⟨rfl, rfl⟩
  | cons f rest ih =>
      intro n cs h
      cases hb : buildCube cal f memmap with
      | error e => simp [readLoop, hb] at h
      | ok c =>
          cases hr : readLoop cal memmap rest n with
          | mk r m =>
              cases r with
              | error e => simp [readLoop, hb, hr] at h
              | ok cs2 =>
                  simp [readLoop, hb, hr] at h
                  subst h
                  have h2 : (readLoop cal memmap rest n).1 = Except.ok cs2 := by
                    rw [hr]
                  obtain ⟨hlen, hmeta⟩ := ih n cs2 h2
                  refine ⟨by simp [hlen], ?_⟩
                  simp [hmeta, buildCube_meta cal f memmap c hb]

/-- A successful sequence construction stores exactly its inputs. -/
theorem sequenceInit_ok (l : List IRISMapCube) (m : Option Meta) (ca : Nat)
    (s : IRISMapCubeSequence) (h : sequenceInit l m ca = Except.ok s) :
    s = { data_list := l, meta := m, common_axis := ca } := by
  cases l with
  | nil =>
      simp [sequenceInit] at h
      exact h.symm
  | cons c0 rest =>
      simp only [sequenceInit] at h
      split at h
      · exact Except.noConfusion h
      · simp at h
        exact h.symm

/-- A call that returns successfully has released every handle. -/
theorem readCore_ok_count (cal : Calibration) (memmap : Bool)
    (fns : List FitsFile) (r : ReadResult)
    (h : (readCore cal memmap fns).1 = Except.ok r) :
    (readCore cal memmap fns).2 = 0 := by
  cases hr : readLoop cal memmap fns 0 with
  | mk res n =>
      cases res with
      | error e => simp [readCore, hr] at h
      | ok cubes =>
          have hn : n = 0 := by
            have h2 := readLoop_ok_count cal memmap fns 0 cubes (by rw [hr])
            rw [hr] at h2
            exact h2
          subst hn
          simp only [readCore, hr]
          split
          · split <;> rfl
          · split
            · rfl
            · split <;> rfl

/-- A successful call on a single path returns the cube of that path. -/
theorem readCore_single (cal : Calibration) (memmap : Bool)
    (fns : List FitsFile) (r : ReadResult) (h1 : fns.length = 1)
    (h : (readCore cal memmap fns).1 = Except.ok r) :
    ∃ c, r = ReadResult.cube c ∧
      (readLoop cal memmap fns 0).1 = Except.ok [c] := by
  cases hr : readLoop cal memmap fns 0 with
  | mk res n =>
      cases res with
      | error e => simp [readCore, hr] at h
      | ok cubes =>
          simp only [readCore, hr] at h
          rw [if_pos h1] at h
          cases cubes with
          | nil => exact Except.noConfusion h
          | cons c t =>
              have hlen := (readLoop_ok_cubes cal memmap fns 0 (c :: t)
                (by rw [hr])).1
              have ht : t = [] := by
                rw [h1] at hlen
                simpa using hlen
              subst ht
              simp only at h
              simp at h
              exact ⟨c, h.symm, rfl⟩

/-- A successful call on two or more paths returns a sequence built
from the loop cubes, with the meta of the last cube. -/
theorem readCore_multi (cal : Calibration) (memmap : Bool)
    (fns : List FitsFile) (r : ReadResult) (h2 : 2 ≤ fns.length)
    (h : (readCore cal memmap fns).1 = Except.ok r) :
    ∃ (cubes : List IRISMapCube) (clast : IRISMapCube),
      (readLoop cal memmap fns 0).1 = Except.ok cubes ∧
      cubes.getLast? = some clast ∧
      r = ReadResult.seq
        { data_list := cubes, meta := some clast.meta, common_axis := 0 } := by
  cases hr : readLoop cal memmap fns 0 with
  | mk res n =>
      cases res with
      | error e => simp [readCore, hr] at h
      | ok cubes =>
          simp only [readCore, hr] at h
          rw [if_neg (by omega)] at h
          cases hl : cubes.getLast? with
          | none =>
              simp only [hl] at h
              exact Except.noConfusion h
          | some clast =>
              simp only [hl] at h
              cases hs : sequenceInit cubes (some clast.meta) 0 with
              | error e =>
                  simp only [hs] at h
                  exact Except.noConfusion h
              | ok s =>
                  simp only [hs] at h
                  simp at h
                  refine ⟨cubes, clast, rfl, hl, ?_⟩
                  rw [← h, sequenceInit_ok cubes (some clast.meta) 0 s hs]

/-- The cube of a successful single-file call is built by buildCube. -/
theorem readLoop_singleton (cal : Calibration) (memmap : Bool) (f : FitsFile)
    (n : Nat) (c : IRISMapCube)
    (h : (readLoop cal memmap [f] n).1 = Except.ok [c]) :
    buildCube cal f memmap = Except.ok c := by
  cases hb : buildCube cal f memmap with
  | error e => simp [readLoop, hb] at h
  | ok c0 =>
      simp [readLoop, hb] at h
      rw [h]

/-!
Claim theorems.
-/

/-- C1 (code-bug evaluation): scaled-mode ingestion of a file whose
first cell holds the sentinel -200 replaces that cell with NaN and
leaves the other cell untouched, but the mask — computed at source line
328 from the aliased array after the in-place replacement of line 327 —
is false everywhere, including at the sentinel position, contradicting
the claim that the mask is true exactly at the original sentinel
positions. -/
theorem sentinel_mask_bug_eval :
    file1.data = Arr.d2 [[FVal.val (-200), FVal.val 100]] ∧
    (read_iris_sji_level2_fits testCal (FileArg.str file1) false).1 =
      Except.ok (ReadResult.cube c1cube) ∧
    c1cube.data = Arr.d2 [[FVal.nan, FVal.val 100]] ∧
    c1cube.mask = some (Arr.d2 [[false, false]]) :=
  ⟨rfl, rfl, rfl, rfl⟩

/-- C2 (counterexample): ingesting a good file followed by a file whose
auxiliary header lacks the EXPTIMES card propagates the KeyError with
one FITS handle still open, so the resource of the failing file is not
released before the exception propagates. -/
theorem fits_handle_leak_counterexample :
    (read_iris_sji_level2_fits testCal (FileArg.list [file1, file2bad]) false).1 =
      Except.error "KeyError: EXPTIMES" ∧
    (read_iris_sji_level2_fits testCal (FileArg.list [file1, file2bad]) false).2 = 1 :=
  ⟨rfl, rfl⟩

/-- C2 (amended): on a successful return every FITS handle opened by the
call has been released; each file's handle is closed on that file's
success path before the next file is opened; but when parsing or cube
construction of a file raises, the loop propagates the error with
exactly that file's handle left open. -/
theorem fits_handle_release_amended (cal : Calibration) (fa : FileArg)
    (memmap : Bool) :
    (∀ r, (read_iris_sji_level2_fits cal fa memmap).1 = Except.ok r →
        (read_iris_sji_level2_fits cal fa memmap).2 = 0) ∧
    (∀ (fs : List FitsFile) (n : Nat) (e : String),
        (readLoop cal memmap fs n).1 = Except.error e →
        (readLoop cal memmap fs n).2 = n + 1) := by
  constructor
  · intro r h
    exact readCore_ok_count cal memmap (normalizeFilenames fa) r h
  · intro fs n e h
    exact readLoop_error_count cal memmap fs n e h

/-- C2 witness: a successful single-file call ends with zero open
handles, and the loop on the file with the missing EXPTIMES card ends
with one open handle. -/
theorem fits_handle_release_amended_witness :
    (read_iris_sji_level2_fits testCal (FileArg.str file1) false).2 = 0 ∧
    (readLoop testCal false [file2bad] 0).2 = 0 + 1 :=
  ⟨(fits_handle_release_amended testCal (FileArg.str file1) false).1
      (ReadResult.cube c1cube) rfl,
   (fits_handle_release_amended testCal (FileArg.str file1) false).2
      [file2bad] 0 "KeyError: EXPTIMES" rfl⟩

/-- C3: invoking exposure-time correction on a cube whose scaled flag
is false raises the memmap usage error for every combination of the
undo and force flags, and the receiver is unchanged. -/
theorem memmap_apply_raises (c : IRISMapCube) (undo force : Bool)
    (h : c.scaled = some false) :
    applyExposureTimeCorrection c undo force = (Except.error memmapErrorMsg, c) := by
  simp [applyExposureTimeCorrection, applyExposureRes, h]

/-- C3 witness: a cube built by memory-mapped ingestion has scaled set
to false and the correction raises on it. -/
theorem memmap_apply_raises_witness :
    applyExposureTimeCorrection c3cube true false =
      (Except.error memmapErrorMsg, c3cube) ∧
    applyExposureTimeCorrection c3cube false true =
      (Except.error memmapErrorMsg, c3cube) :=
  ⟨memmap_apply_raises c3cube true false rfl,
   memmap_apply_raises c3cube false true rfl⟩

/-- C4: on a scaled cube the correction combines each frame of the data
and uncertainty arrays with the matching entry of the per-frame
exposure-time vector for ranks 1, 2 and 3 — the semantics of
broadcasting the vector with singleton axes inserted on every axis
except axis 0 — and raises the dimensions usage error for every array
of rank greater than 3, for every combination of the flags. -/
theorem exposure_broadcast_rank (c : IRISMapCube) (undo force : Bool)
    (unc : Arr FVal) (hs : c.scaled = some true)
    (hu : c.uncertainty = some unc) :
    (c.data.ndim ≤ 3 →
      c.data.frames = c.extra_coords.exposure_times.length →
      unc.frames = c.extra_coords.exposure_times.length →
      (applyExposureTimeCorrection c undo true).1 =
        Except.ok (correctedCube c
          (c.data.scaleFrames (if undo then mulByExp else divByExp)
            c.extra_coords.exposure_times)
          (unc.scaleFrames (if undo then mulByExp else divByExp)
            c.extra_coords.exposure_times)
          { tag := c.unit.tag, photonFactor := c.unit.photonFactor,
            secPow := c.unit.secPow + (if undo then 1 else -1) })) ∧
    (3 < c.data.ndim →
      (applyExposureTimeCorrection c undo force).1 =
        Except.error ("IRISMapCube dimensions must be 2 or 3. Dimensions=" ++
          toString c.data.ndim)) := by
  constructor
  · intro h3 hf hfu
    have hnd : c.data.ndim = 1 ∨ c.data.ndim = 2 ∨ c.data.ndim = 3 := by
      cases hd : c.data
      · exact Or.inl rfl
      · exact Or.inr (Or.inl rfl)
      · exact Or.inr (Or.inr rfl)
      · rw [hd] at h3; simp [Arr.ndim] at h3
    simp only [applyExposureTimeCorrection, applyExposureRes, hs]
    rw [if_neg (by simp), if_pos hnd]
    simp only [hu]
    cases undo
    · simp only [Bool.false_eq_true, if_false]
      simp only [calculate_exposure_time_correction]
      rw [if_neg (by simp), if_neg (by simp [hf, hfu])]
      simp [Int.sub_eq_add_neg]
    · simp only [if_true]
      simp only [uncalculate_exposure_time_correction]
      rw [if_neg (by simp), if_neg (by simp [hf, hfu])]
  · intro h4
    have hnd : ¬ (c.data.ndim = 1 ∨ c.data.ndim = 2 ∨ c.data.ndim = 3) := by omega
    simp only [applyExposureTimeCorrection, applyExposureRes, hs]
    rw [if_neg (by simp), if_neg hnd]

/-- C4 witness: the rank-2 broadcast succeeds on the concrete scaled
cube and the correction raises on the rank-4 variant. -/
theorem exposure_broadcast_rank_witness :
    (applyExposureTimeCorrection c5cube false true).1 =
      Except.ok (correctedCube c5cube
        (c5cube.data.scaleFrames (if false then mulByExp else divByExp)
          c5cube.extra_coords.exposure_times)
        ((Arr.d2 [[FVal.val 2]]).scaleFrames (if false then mulByExp else divByExp)
          c5cube.extra_coords.exposure_times)
        { tag := c5cube.unit.tag, photonFactor := c5cube.unit.photonFactor,
          secPow := c5cube.unit.secPow + (if false then 1 else -1) }) ∧
    (applyExposureTimeCorrection c4big true false).1 =
      Except.error ("IRISMapCube dimensions must be 2 or 3. Dimensions=" ++
        toString c4big.data.ndim) :=
  ⟨(exposure_broadcast_rank c5cube false true (Arr.d2 [[FVal.val 2]]) rfl rfl).1
      (by decide) (by decide) (by decide),
   (exposure_broadcast_rank c4big true false (Arr.d2 [[FVal.val 2]]) rfl rfl).2
      (by decide)⟩

/-- C5 (code-bug evaluation): on a concrete scaled cube the first
correction succeeds, but the cube it returns has its scaled attribute
left at the constructor default None because the constructor call of
source line 205 passes no scaled argument; consequently the second
apply, and equally an undo of the correction, raise the memmap usage
error instead of the claimed no-op and round-trip. -/
theorem double_apply_raises_bug_eval :
    (applyExposureTimeCorrection c5cube false false).1 = Except.ok c5once ∧
    c5once.data = Arr.d2 [[FVal.val 3]] ∧
    c5once.unit.secPow = -1 ∧
    c5once.scaled = none ∧
    (applyExposureTimeCorrection c5once false false).1 =
      Except.error memmapErrorMsg ∧
    (applyExposureTimeCorrection c5once true false).1 =
      Except.error memmapErrorMsg := by
  refine ⟨rfl, ?_, rfl, rfl, rfl, rfl⟩
  have hv : (6 : ℚ) / 2 = 3 := by norm_num
  have h0 : c5once.data = Arr.d2 [[FVal.val ((6 : ℚ) / 2)]] := rfl
  rw [h0, hv]

/-- C6: the correction never mutates its receiver — the post-call
receiver equals the pre-call receiver in every field — and every cube it
successfully returns is a new instance carrying the original world
coordinates, metadata, mask, missing-axis record and per-frame
coordinates of the input. -/
theorem apply_returns_new_cube_input_unchanged (c : IRISMapCube)
    (undo force : Bool) :
    (applyExposureTimeCorrection c undo force).2 = c ∧
    ∀ c2, (applyExposureTimeCorrection c undo force).1 = Except.ok c2 →
      c2.wcs = c.wcs ∧ c2.meta = c.meta ∧ c2.mask = c.mask ∧
      c2.extra_coords = c.extra_coords ∧ c2.missing_axis = c.missing_axis := by
  refine ⟨rfl, ?_⟩
  intro c2 h
  simp only [applyExposureTimeCorrection, applyExposureRes] at h
  split at h
  · exact Except.noConfusion h
  · split at h
    · split at h
      · exact Except.noConfusion h
      · split at h
        · exact Except.noConfusion h
        · injection h with h2
          subst h2
          exact ⟨rfl, rfl, rfl, rfl, rfl⟩
    · exact Except.noConfusion h

/-- C6 witness: instantiated at the concrete scaled cube and its
corrected result. -/
theorem apply_returns_new_cube_input_unchanged_witness :
    (applyExposureTimeCorrection c5cube false false).2 = c5cube ∧
    (c5once.wcs = c5cube.wcs ∧ c5once.meta = c5cube.meta ∧
     c5once.mask = c5cube.mask ∧ c5once.extra_coords = c5cube.extra_coords ∧
     c5once.missing_axis = c5cube.missing_axis) :=
  ⟨(apply_returns_new_cube_input_unchanged c5cube false false).1,
   (apply_returns_new_cube_input_unchanged c5cube false false).2 c5once rfl⟩

/-- C7: constructing a sequence from a non-empty cube list raises the
data-inconsistency error exactly when some member's OBSID differs from
the first member's; when all OBSID values agree the construction
succeeds and stores the cubes in input order. -/
theorem sequence_obsid_invariant (c0 : IRISMapCube) (rest : List IRISMapCube)
    (m : Option Meta) (ca : Nat) :
    (sequenceInit (c0 :: rest) m ca = Except.error obsidErrorMsg ↔
      ∃ c ∈ c0 :: rest, c.meta.OBSID ≠ c0.meta.OBSID) ∧
    ((∀ c ∈ c0 :: rest, c.meta.OBSID = c0.meta.OBSID) →
      sequenceInit (c0 :: rest) m ca =
        Except.ok { data_list := c0 :: rest, meta := m, common_axis := ca }) := by
  have hkey : sequenceInit (c0 :: rest) m ca = Except.error obsidErrorMsg ↔
      (c0 :: rest).any (fun c => decide (c.meta.OBSID ≠ c0.meta.OBSID)) = true := by
    constructor
    · intro h
      by_contra hA
      simp only [sequenceInit] at h
      rw [if_neg hA] at h
      exact Except.noConfusion h
    · intro hA
      simp only [sequenceInit]
      rw [if_pos hA]
  constructor
  · rw [hkey, List.any_eq_true]
    simp only [decide_eq_true_eq]
  · intro hall
    simp only [sequenceInit]
    have hA : ¬ ((c0 :: rest).any fun c => decide (c.meta.OBSID ≠ c0.meta.OBSID)) = true := by
      intro hA2
      obtain ⟨c, hc, hne⟩ := List.any_eq_true.mp hA2
      exact (of_decide_eq_true hne) (hall c hc)
    rw [if_neg hA]

/-- C7 witness: a two-cube list with differing OBSID raises, and a
two-cube list with one OBSID succeeds in input order. -/
theorem sequence_obsid_invariant_witness :
    sequenceInit [c5cube, cObs1] none 0 = Except.error obsidErrorMsg ∧
    sequenceInit [c5cube, c5cube] none 0 =
      Except.ok { data_list := [c5cube, c5cube], meta := none, common_axis := 0 } :=
  ⟨(sequence_obsid_invariant c5cube [cObs1] none 0).1.mpr
      ⟨cObs1, by decide, by decide⟩,
   (sequence_obsid_invariant c5cube [c5cube] none 0).2 (by decide)⟩

/-- C8: a successful call on a bare path or on a one-element path list
returns a single cube, and a successful call on two or more paths
returns a sequence whose length equals the number of input paths. -/
theorem single_vs_multi_return (cal : Calibration) (memmap : Bool) :
    (∀ (f : FitsFile) (r : ReadResult),
        (read_iris_sji_level2_fits cal (FileArg.str f) memmap).1 = Except.ok r →
        ∃ c, r = ReadResult.cube c) ∧
    (∀ (f : FitsFile) (r : ReadResult),
        (read_iris_sji_level2_fits cal (FileArg.list [f]) memmap).1 = Except.ok r →
        ∃ c, r = ReadResult.cube c) ∧
    (∀ (fs : List FitsFile) (r : ReadResult), 2 ≤ fs.length →
        (read_iris_sji_level2_fits cal (FileArg.list fs) memmap).1 = Except.ok r →
        ∃ s, r = ReadResult.seq s ∧ s.data_list.length = fs.length) := by
  refine ⟨?_, ?_, ?_⟩
  · intro f r h
    obtain ⟨c, hc, _⟩ := readCore_single cal memmap [f] r rfl h
    exact ⟨c, hc⟩
  · intro f r h
    obtain ⟨c, hc, _⟩ := readCore_single cal memmap [f] r rfl h
    exact ⟨c, hc⟩
  · intro fs r h2 h
    obtain ⟨cubes, clast, hloop, _, hr⟩ := readCore_multi cal memmap fs r h2 h
    refine ⟨{ data_list := cubes, meta := some clast.meta, common_axis := 0 }, hr, ?_⟩
    exact (readLoop_ok_cubes cal memmap fs 0 cubes hloop).1

/-- C8 witness: one path yields a cube, two paths yield a sequence of
length two. -/
theorem single_vs_multi_return_witness :
    (∃ c, ReadResult.cube c1cube = ReadResult.cube c) ∧
    (∃ s, ReadResult.seq c8seq = ReadResult.seq s ∧
      s.data_list.length = [file1, file8b].length) :=
  ⟨(single_vs_multi_return testCal false).1 file1 (ReadResult.cube c1cube) rfl,
   (single_vs_multi_return testCal false).2.2 [file1, file8b]
      (ReadResult.seq c8seq) (by decide) rfl⟩

/-- A successful single-path call returns exactly the cube built from
that file. -/
theorem read_single_buildCube (cal : Calibration) (memmap : Bool)
    (f : FitsFile) (c : IRISMapCube)
    (h : (read_iris_sji_level2_fits cal (FileArg.str f) memmap).1 =
      Except.ok (ReadResult.cube c)) :
    buildCube cal f memmap = Except.ok c := by
  obtain ⟨c2, hc2, hloop⟩ := readCore_single cal memmap [f] (ReadResult.cube c) rfl h
  injection hc2 with hc3
  subst hc3
  exact readLoop_singleton cal memmap f 0 c hloop

/-- C9: the stored per-pixel uncertainty of a successful scaled
ingestion is the spec formula applied pointwise to the cleaned data —
the sample converted to the photon basis, plus the squared readout-noise
constant in the photon basis, square-rooted and converted back to the
declared unit; the formula maps NaN samples to NaN without raising, and
on a finite sample value q it is the claimed arithmetic expression. -/
theorem uncertainty_formula (cal : Calibration) (f : FitsFile)
    (c : IRISMapCube)
    (h : (read_iris_sji_level2_fits cal (FileArg.str f) false).1 =
      Except.ok (ReadResult.cube c)) :
    c.uncertainty = some (c.data.map (uncertaintySpec cal)) ∧
    uncertaintySpec cal FVal.nan = FVal.nan ∧
    (∀ q : ℚ, cal.photonFactor ≠ 0 →
      0 ≤ q * cal.photonFactor + cal.readoutPhoton ^ 2 →
      uncertaintySpec cal (FVal.val q) =
        FVal.val (cal.sqrtF (q * cal.photonFactor + cal.readoutPhoton ^ 2) /
          cal.photonFactor)) := by
  refine ⟨?_, rfl, ?_⟩
  · have hb := read_single_buildCube cal false f c h
    obtain ⟨hdata, hunc, _, _, _⟩ := buildCube_scaled_fields cal f c hb
    rw [hunc, hdata]
    rfl
  · intro q hk hq
    simp only [uncertaintySpec, DN_UNIT_SJI, IrisUnit.toPhotonVal,
      IrisUnit.fromPhotonVal, READOUT_NOISE_SJI, fvalMul, fvalAdd, fsqrt]
    rw [if_neg (not_lt.mpr hq)]
    simp only [fvalDiv]
    rw [if_neg hk]

/-- C9 witness: instantiated on a concrete file and calibration. -/
theorem uncertainty_formula_witness :
    wcube9.uncertainty = some (wcube9.data.map (uncertaintySpec testCal)) ∧
    uncertaintySpec testCal (FVal.val 4) =
      FVal.val (testCal.sqrtF (4 * testCal.photonFactor +
        testCal.readoutPhoton ^ 2) / testCal.photonFactor) :=
  ⟨(uncertainty_formula testCal wfile9 wcube9 rfl).1,
   (uncertainty_formula testCal wfile9 wcube9 rfl).2.2 4
      (by norm_num [testCal]) (by norm_num [testCal])⟩

/-- C10: on a successful multi-file ingestion each member cube carries
the metadata of its own file, in input order, while the metadata
attached to the sequence object itself is exactly the metadata extracted
from the last file of the input list. -/
theorem sequence_meta_last_file (cal : Calibration) (memmap : Bool)
    (fs : List FitsFile) (s : IRISMapCubeSequence) (h2 : 2 ≤ fs.length)
    (h : (read_iris_sji_level2_fits cal (FileArg.list fs) memmap).1 =
      Except.ok (ReadResult.seq s)) :
    s.data_list.map (fun c => c.meta) = fs.map metaOfFile ∧
    ∃ flast, fs.getLast? = some flast ∧ s.meta = some (metaOfFile flast) := by
  obtain ⟨cubes, clast, hloop, hlast, hr⟩ :=
    readCore_multi cal memmap fs (ReadResult.seq s) h2 h
  injection hr with hr2
  subst hr2
  obtain ⟨hlen, hmeta⟩ := readLoop_ok_cubes cal memmap fs 0 cubes hloop
  refine ⟨hmeta, ?_⟩
  have hml := congrArg List.getLast? hmeta
  rw [List.getLast?_map, List.getLast?_map, hlast] at hml
  cases hfl : fs.getLast? with
  | none =>
      rw [hfl] at hml
      simp at hml
  | some flast =>
      rw [hfl] at hml
      simp at hml
      exact ⟨flast, rfl, congrArg some hml⟩

/-- C10 witness: instantiated on the two-file ingestion fixture. -/
theorem sequence_meta_last_file_witness :
    c8seq.data_list.map (fun c => c.meta) = [file1, file8b].map metaOfFile ∧
    ∃ flast, [file1, file8b].getLast? = some flast ∧
      c8seq.meta = some (metaOfFile flast) :=
  sequence_meta_last_file testCal false [file1, file8b] c8seq (by decide) rfl

end IrisSJI
